import Mathlib

/-!
Verification of the liveness-app decision/aggregation core.

The embedded code is the decision logic of the app:
a sliding-window majority-vote decider (TemporalLivenessChecker) and a
timed collection session (startCollection / stopCollection) that tallies
categorized classification events into a final report.
-/

namespace LivenessApp

/-! ## TemporalLivenessChecker (sliding-window decider) -/

/-- State of the sliding-window decider: the prediction history plus the two
configuration parameters of the constructor (defaults 7 and 4). -/
structure TemporalLivenessChecker where
  predictionHistory : List String
  windowSize : Nat
  realThreshold : Nat
deriving DecidableEq

/-- Fresh checker as built by the constructor: empty history. -/
def TemporalLivenessChecker.init (windowSize : Nat := 7) (realThreshold : Nat := 4) :
    TemporalLivenessChecker :=
  { predictionHistory := [], windowSize := windowSize, realThreshold := realThreshold }

/-- addPrediction: push the label, then if the history exceeds windowSize,
shift off the oldest entry (the head). -/
def TemporalLivenessChecker.addPrediction (c : TemporalLivenessChecker)
    (prediction : String) : TemporalLivenessChecker :=
  let h := c.predictionHistory ++ [prediction]
  if h.length > c.windowSize then
    { c with predictionHistory := h.tail }
  else
    { c with predictionHistory := h }

/-- getDecision: UNCERTAIN below windowSize entries; otherwise count the
entries strictly equal to the literal "real" and compare both tallies
against realThreshold, real first. -/
def TemporalLivenessChecker.getDecision (c : TemporalLivenessChecker) : String :=
  if c.predictionHistory.length < c.windowSize then "UNCERTAIN"
  else
    let realCount := (c.predictionHistory.filter (fun p => p == "real")).length
    let spoofCount := c.predictionHistory.length - realCount
    if realCount ≥ c.realThreshold then "LIVENESS_CONFIRMED"
    else if spoofCount ≥ c.realThreshold then "SPOOF_DETECTED"
    else "UNCERTAIN"

/-- Running the checker from construction over a sequence of labels. -/
def runChecker (windowSize realThreshold : Nat) (labels : List String) :
    TemporalLivenessChecker :=
  labels.foldl TemporalLivenessChecker.addPrediction
    (TemporalLivenessChecker.init windowSize realThreshold)

/-! ## Collection session -/

/-- A classification event as delivered by the socket: a class name and a
confidence score. Confidence is modelled as a rational. -/
structure ClassificationEvent where
  className : String
  confidence : ℚ
deriving DecidableEq

/-- The toLowerCase normalization applied to labels, modelled per character
(the labels of the producer contract are ASCII). -/
def toLowerCase (s : String) : String :=
  String.mk (s.toList.map Char.toLower)

/-- Substring containment over character lists: pat occurs contiguously in the
scanned list. -/
def containsSub (pat : List Char) : List Char → Bool
  | [] => pat.isEmpty
  | c :: rest => pat.isPrefixOf (c :: rest) || containsSub pat rest

/-- The semantics of the String includes test used by the category filters. -/
def includesSubstr (s pat : String) : Bool :=
  containsSub pat.toList s.toList

/-- The benign filter of stopCollection: the lower-cased class name equals
"real", "benign" or "live". -/
def isBenign (e : ClassificationEvent) : Bool :=
  toLowerCase e.className == "real" || toLowerCase e.className == "benign" ||
    toLowerCase e.className == "live"

/-- The print-attack filter of stopCollection: the lower-cased class name
contains "print" or equals "print_attack". -/
def isPrintAttack (e : ClassificationEvent) : Bool :=
  includesSubstr (toLowerCase e.className) "print" ||
    toLowerCase e.className == "print_attack"

/-- The replay-attack filter of stopCollection: the lower-cased class name
contains "replay" or equals "replay_attack". -/
def isReplayAttack (e : ClassificationEvent) : Bool :=
  includesSubstr (toLowerCase e.className) "replay" ||
    toLowerCase e.className == "replay_attack"

/-- Events matching none of the three filters; the report itself carries no
such count, this is the derived notion of an UNKNOWN tally. -/
def unknownCount (accuracyData : List ClassificationEvent) : Nat :=
  (accuracyData.filter
    (fun e => !(isBenign e || isPrintAttack e || isReplayAttack e))).length

/-- The final accuracy record set by stopCollection: note it carries exactly
three per-category counts. -/
structure FinalAccuracy where
  averageConfidence : ℚ
  totalPredictions : Nat
  benignCount : Nat
  printAttackCount : Nat
  replayAttackCount : Nat
  conclusion : String
deriving DecidableEq

/-- The aggregation performed by stopCollection over the collected
accuracyData: independent filters for the three categories, mean confidence,
and the benign-majority conclusion; the zero-data branch yields the fail-safe
record. -/
def computeFinalAccuracy (accuracyData : List ClassificationEvent) : FinalAccuracy :=
  if accuracyData.length > 0 then
    let totalPredictions := accuracyData.length
    let benignCount := (accuracyData.filter isBenign).length
    let printAttackCount := (accuracyData.filter isPrintAttack).length
    let replayAttackCount := (accuracyData.filter isReplayAttack).length
    let spoofingCount := printAttackCount + replayAttackCount
    let averageConfidence :=
      (accuracyData.map (fun e => e.confidence)).sum / (totalPredictions : ℚ)
    let conclusion := if benignCount > spoofingCount then "Liveness" else "Spoofing Attack"
    { averageConfidence := averageConfidence
      totalPredictions := totalPredictions
      benignCount := benignCount
      printAttackCount := printAttackCount
      replayAttackCount := replayAttackCount
      conclusion := conclusion }
  else
    { averageConfidence := 0
      totalPredictions := 0
      benignCount := 0
      printAttackCount := 0
      replayAttackCount := 0
      conclusion := "Spoofing Attack" }

/-- The component state the session logic touches. -/
structure SessionState where
  isCollecting : Bool
  timeRemaining : Int
  accuracyData : List ClassificationEvent
  finalAccuracy : Option FinalAccuracy
  showResults : Bool
deriving DecidableEq

/-- startCollection: reset the collection state and start a 15-second
countdown. -/
def startCollection (s : SessionState) : SessionState :=
  { s with
    accuracyData := []
    finalAccuracy := none
    showResults := false
    timeRemaining := 15
    isCollecting := true }

/-- The prediction_result handler during collection: append the event to
accuracyData while collecting, otherwise leave it unchanged. -/
def onEvent (s : SessionState) (e : ClassificationEvent) : SessionState :=
  if s.isCollecting then { s with accuracyData := s.accuracyData ++ [e] }
  else s

/-- stopCollection: unconditionally leave the collecting state, compute the
final accuracy over the current accuracyData, and show the results. There is
no state guard in the source. -/
def stopCollection (s : SessionState) : SessionState :=
  { s with
    isCollecting := false
    finalAccuracy := some (computeFinalAccuracy s.accuracyData)
    showResults := true }

/-- A stopCollection closure as created by one render: it aggregates the
accuracyData value that render captured, not the accuracyData of the state it
is applied to. A manual stop runs the latest render's closure, which is
stopCollection above; the countdown interval instead holds the closure of the
render in which startCollection ran. -/
def stopCollectionClosure (accuracyData : List ClassificationEvent)
    (s : SessionState) : SessionState :=
  { s with
    isCollecting := false
    finalAccuracy := some (computeFinalAccuracy accuracyData)
    showResults := true }

/-- One firing of the countdown interval started by startCollection: decrement
timeLeft and, at zero, run the stopCollection closure the interval captured.
That closure is the one from the render in which collection started, so it
aggregates that render's accuracyData snapshot (the value before the reset
performed by startCollection), not the events accumulated since. -/
def tickTimer (snapshot : List ClassificationEvent) (s : SessionState) :
    SessionState :=
  let s2 := { s with timeRemaining := s.timeRemaining - 1 }
  if s2.timeRemaining ≤ 0 then stopCollectionClosure snapshot s2 else s2

/-! ## C1 -/

/-- C1: getDecision returns UNCERTAIN whenever the window holds fewer than
windowSize labels; when the window is full (length = windowSize), realCount is
the number of entries exactly equal, case-sensitively, to the literal "real",
spoofCount = windowSize - realCount, and the result is LIVENESS_CONFIRMED if
realCount is at least realThreshold, SPOOF_DETECTED if spoofCount is at least
realThreshold, and UNCERTAIN otherwise. -/
theorem getDecision_spec (c : TemporalLivenessChecker) :
    (c.predictionHistory.length < c.windowSize → c.getDecision = "UNCERTAIN") ∧
    (c.predictionHistory.length = c.windowSize →
      c.getDecision =
        (if c.predictionHistory.count "real" ≥ c.realThreshold then
          "LIVENESS_CONFIRMED"
        else if c.windowSize - c.predictionHistory.count "real" ≥ c.realThreshold then
          "SPOOF_DETECTED"
        else "UNCERTAIN")) := by
  constructor
  · intro h
    simp [TemporalLivenessChecker.getDecision, h]
  · intro h
    have hcount : (c.predictionHistory.filter (fun p => p == "real")).length
        = c.predictionHistory.count "real" := by
      simp [List.count, List.countP_eq_length_filter]
    simp only [TemporalLivenessChecker.getDecision, h, lt_irrefl, if_false, hcount]

/-- Concrete instantiation of C1: a 6-long window is UNCERTAIN, a full window
with four "real" entries is LIVENESS_CONFIRMED, and a full window with four
non-"real" entries is SPOOF_DETECTED. -/
theorem getDecision_spec_witness :
    (TemporalLivenessChecker.mk ["real", "real", "real", "real", "print", "print"] 7 4).getDecision
      = "UNCERTAIN" ∧
    (TemporalLivenessChecker.mk ["real", "real", "real", "real", "print", "print", "print"] 7 4).getDecision
      = "LIVENESS_CONFIRMED" ∧
    (TemporalLivenessChecker.mk ["print", "print", "print", "print", "real", "real", "real"] 7 4).getDecision
      = "SPOOF_DETECTED" := by
  refine ⟨?_, ?_, ?_⟩
  · exact (getDecision_spec _).1 (by decide)
  · exact ((getDecision_spec _).2 (by decide)).trans (by decide)
  · exact ((getDecision_spec _).2 (by decide)).trans (by decide)

/-! ## C7 -/

/-- addPrediction leaves windowSize unchanged. -/
lemma addPrediction_windowSize (c : TemporalLivenessChecker) (p : String) :
    (c.addPrediction p).windowSize = c.windowSize := by
  simp only [TemporalLivenessChecker.addPrediction]
  split <;> rfl

/-- The history after addPrediction, as a conditional on the pre-push length. -/
lemma addPrediction_history (c : TemporalLivenessChecker) (p : String) :
    (c.addPrediction p).predictionHistory =
      if c.predictionHistory.length + 1 > c.windowSize then
        (c.predictionHistory ++ [p]).tail
      else c.predictionHistory ++ [p] := by
  simp only [TemporalLivenessChecker.addPrediction, List.length_append,
    List.length_singleton]
  split <;> rfl

/-- Folding addPrediction over labels from a state whose history respects the
capacity bound yields the suffix of the concatenated stream that fits the
window, and preserves windowSize. -/
lemma foldl_addPrediction_history :
    ∀ (labels : List String) (c : TemporalLivenessChecker),
      c.predictionHistory.length ≤ c.windowSize →
      (labels.foldl TemporalLivenessChecker.addPrediction c).predictionHistory =
        (c.predictionHistory ++ labels).drop
          ((c.predictionHistory ++ labels).length - c.windowSize) ∧
      (labels.foldl TemporalLivenessChecker.addPrediction c).windowSize = c.windowSize
  | [], c, h => by
      refine ⟨?_, rfl⟩
      simp [Nat.sub_eq_zero_of_le h]
  | p :: rest, c, h => by
      rw [List.foldl_cons]
      by_cases hgt : c.predictionHistory.length + 1 > c.windowSize
      · have hlen : c.predictionHistory.length = c.windowSize := by omega
        have hph : (c.addPrediction p).predictionHistory =
            (c.predictionHistory ++ [p]).tail := by
          rw [addPrediction_history, if_pos hgt]
        have hws : (c.addPrediction p).windowSize = c.windowSize :=
          addPrediction_windowSize c p
        have hbound : (c.addPrediction p).predictionHistory.length ≤
            (c.addPrediction p).windowSize := by
          rw [hph, hws, List.length_tail]
          simp [hlen]
        obtain ⟨ih1, ih2⟩ := foldl_addPrediction_history rest (c.addPrediction p) hbound
        rw [hws] at ih2
        refine ⟨?_, ih2⟩
        rw [ih1, hph, hws]
        have htail : (c.predictionHistory ++ [p]).tail ++ rest =
            ((c.predictionHistory ++ [p]) ++ rest).drop 1 := by
          rw [List.drop_append_of_le_length (by simp), List.drop_one]
        have hidx1 : ((c.predictionHistory ++ [p]).tail ++ rest).length - c.windowSize =
            rest.length := by
          rw [List.length_append, List.length_tail]
          simp [hlen]
        have hidx2 : (c.predictionHistory ++ p :: rest).length - c.windowSize =
            rest.length + 1 := by
          simp [List.length_append, hlen]
        rw [hidx1, hidx2, htail, List.drop_drop]
        have hassoc : (c.predictionHistory ++ [p]) ++ rest =
            c.predictionHistory ++ p :: rest := by
          simp
        rw [hassoc, Nat.add_comm]
      · have hph : (c.addPrediction p).predictionHistory =
            c.predictionHistory ++ [p] := by
          rw [addPrediction_history, if_neg hgt]
        have hws : (c.addPrediction p).windowSize = c.windowSize :=
          addPrediction_windowSize c p
        have hbound : (c.addPrediction p).predictionHistory.length ≤
            (c.addPrediction p).windowSize := by
          rw [hph, hws]
          simp
          omega
        obtain ⟨ih1, ih2⟩ := foldl_addPrediction_history rest (c.addPrediction p) hbound
        rw [hws] at ih2
        refine ⟨?_, ih2⟩
        rw [ih1, hph, hws]
        have hassoc : (c.predictionHistory ++ [p]) ++ rest =
            c.predictionHistory ++ p :: rest := by
          simp
        rw [hassoc]

/-- C7: after any sequence of addPrediction calls from construction, the window
length is at most windowSize (and equals min n windowSize), the window is
exactly the most recent min(n, windowSize) labels in arrival order (the suffix
of the stream), and a push onto a full nonempty-capacity window evicts exactly
the oldest entry. -/
theorem window_fifo_spec :
    (∀ (windowSize realThreshold : Nat) (labels : List String),
      (runChecker windowSize realThreshold labels).predictionHistory.length ≤ windowSize ∧
      (runChecker windowSize realThreshold labels).predictionHistory.length =
        min labels.length windowSize ∧
      (runChecker windowSize realThreshold labels).predictionHistory =
        labels.drop (labels.length - windowSize)) ∧
    (∀ (c : TemporalLivenessChecker) (p : String),
      c.predictionHistory.length = c.windowSize → 0 < c.windowSize →
      (c.addPrediction p).predictionHistory = c.predictionHistory.tail ++ [p]) := by
  constructor
  · intro windowSize realThreshold labels
    obtain ⟨h1, _⟩ := foldl_addPrediction_history labels
      (TemporalLivenessChecker.init windowSize realThreshold) (by simp [TemporalLivenessChecker.init])
    have hrun : (runChecker windowSize realThreshold labels).predictionHistory =
        labels.drop (labels.length - windowSize) := by
      simpa [TemporalLivenessChecker.init, runChecker] using h1
    refine ⟨?_, ?_, hrun⟩
    · rw [hrun, List.length_drop]
      omega
    · rw [hrun, List.length_drop]
      omega
  · intro c p hfull hpos
    rw [addPrediction_history, if_pos (by omega)]
    have hne : c.predictionHistory ≠ [] := by
      intro hnil
      rw [hnil] at hfull
      simp at hfull
      omega
    rw [List.tail_append_of_ne_nil hne]

/-- Concrete instantiation of C7: pushing eight labels through the default
7-slot window keeps the last seven in order, and a push onto a full window
evicts the oldest entry. -/
theorem window_fifo_spec_witness :
    (runChecker 7 4 ["a", "b", "c", "d", "e", "f", "g", "h"]).predictionHistory =
      ["b", "c", "d", "e", "f", "g", "h"] ∧
    ((TemporalLivenessChecker.mk ["a", "b", "c"] 3 2).addPrediction "d").predictionHistory =
      ["b", "c", "d"] := by
  constructor
  · exact ((window_fifo_spec.1 7 4 ["a", "b", "c", "d", "e", "f", "g", "h"]).2.2).trans (by decide)
  · exact (window_fifo_spec.2 (TemporalLivenessChecker.mk ["a", "b", "c"] 3 2) "d"
      (by decide) (by decide)).trans (by decide)

/-! ## C8 -/

/-- C8: under the design constraint that realThreshold exceeds half the window
size (2 * realThreshold > windowSize, satisfied by the defaults 7 and 4), the
two guards of getDecision are mutually exclusive on a full window: the counts
realCount and spoofCount = windowSize - realCount cannot both reach
realThreshold. -/
theorem getDecision_guards_exclusive (c : TemporalLivenessChecker)
    (hthr : 2 * c.realThreshold > c.windowSize)
    (hfull : c.predictionHistory.length = c.windowSize) :
    ¬(c.predictionHistory.count "real" ≥ c.realThreshold ∧
      c.windowSize - c.predictionHistory.count "real" ≥ c.realThreshold) := by
  rintro ⟨h1, h2⟩
  have hle : c.predictionHistory.count "real" ≤ c.windowSize := by
    calc c.predictionHistory.count "real" ≤ c.predictionHistory.length :=
          List.count_le_length _ _
    _ = c.windowSize := hfull
  omega

/-- Concrete instantiation of C8 at the default configuration: with windowSize
7 and realThreshold 4 and a full window holding three "real" entries, the two
guards do not both hold. -/
theorem getDecision_guards_exclusive_witness :
    ¬((TemporalLivenessChecker.mk
        ["real", "real", "real", "x", "x", "x", "x"] 7 4).predictionHistory.count "real" ≥ 4 ∧
      7 - (TemporalLivenessChecker.mk
        ["real", "real", "real", "x", "x", "x", "x"] 7 4).predictionHistory.count "real" ≥ 4) :=
  getDecision_guards_exclusive
    (TemporalLivenessChecker.mk ["real", "real", "real", "x", "x", "x", "x"] 7 4)
    (by decide) (by decide)

/-! ## C10 -/

/-- C10: with the default configuration (windowSize 7, realThreshold 4), a full
window never yields UNCERTAIN: getDecision is LIVENESS_CONFIRMED or
SPOOF_DETECTED, because realCount at least 4 or 7 - realCount at least 4 always
holds, so the trailing UNCERTAIN branch is unreachable on full windows. -/
theorem getDecision_full_window_decides (c : TemporalLivenessChecker)
    (hws : c.windowSize = 7) (hthr : c.realThreshold = 4)
    (hfull : c.predictionHistory.length = 7) :
    c.getDecision = "LIVENESS_CONFIRMED" ∨ c.getDecision = "SPOOF_DETECTED" := by
  have hdec := (getDecision_spec c).2 (by rw [hfull, hws])
  rw [hws] at hdec
  have hle : c.predictionHistory.count "real" ≤ 7 := by
    calc c.predictionHistory.count "real" ≤ c.predictionHistory.length :=
          List.count_le_length _ _
    _ = 7 := hfull
  rw [hthr] at hdec
  by_cases h4 : c.predictionHistory.count "real" ≥ 4
  · left
    rw [hdec, if_pos h4]
  · right
    have h7 : 7 - c.predictionHistory.count "real" ≥ 4 := by omega
    rw [hdec, if_neg h4, if_pos h7]

/-- Concrete instantiation of C10: a full mixed window at the defaults decides
(here SPOOF_DETECTED is reached). -/
theorem getDecision_full_window_decides_witness :
    (TemporalLivenessChecker.mk
        ["real", "x", "real", "x", "x", "real", "x"] 7 4).getDecision = "LIVENESS_CONFIRMED" ∨
    (TemporalLivenessChecker.mk
        ["real", "x", "real", "x", "x", "real", "x"] 7 4).getDecision = "SPOOF_DETECTED" :=
  getDecision_full_window_decides
    (TemporalLivenessChecker.mk ["real", "x", "real", "x", "x", "real", "x"] 7 4)
    rfl rfl (by decide)

/-! ## Category-predicate lemmas -/

/-- A benign label matches neither attack filter: the three benign literals
contain neither "print" nor "replay" and equal neither attack literal. -/
lemma benign_not_attack (e : ClassificationEvent) (hb : isBenign e = true) :
    isPrintAttack e = false ∧ isReplayAttack e = false := by
  simp only [isBenign, Bool.or_eq_true, beq_iff_eq] at hb
  rcases hb with (h | h) | h <;>
    · constructor
      · simp only [isPrintAttack, h]
        decide
      · simp only [isReplayAttack, h]
        decide

/-- Partition identity over the four derived tallies, valid exactly when no
event matches both attack filters. -/
lemma category_partition :
    ∀ (data : List ClassificationEvent),
      (∀ e ∈ data, ¬(isPrintAttack e = true ∧ isReplayAttack e = true)) →
      (data.filter isBenign).length + (data.filter isPrintAttack).length +
        (data.filter isReplayAttack).length + unknownCount data = data.length
  | [], _ => by simp [unknownCount]
  | e :: rest, hyp => by
      have hrest := category_partition rest
        (fun x hx => hyp x (List.mem_cons_of_mem _ hx))
      have he : ¬(isPrintAttack e = true ∧ isReplayAttack e = true) :=
        hyp e (List.mem_cons_self _ _)
      by_cases hb : isBenign e = true
      · obtain ⟨hp, hr⟩ := benign_not_attack e hb
        simp [unknownCount, List.filter_cons, hb, hp, hr] at hrest ⊢
        omega
      · by_cases hp : isPrintAttack e = true
        · by_cases hr : isReplayAttack e = true
          · exact absurd ⟨hp, hr⟩ he
          · rw [Bool.not_eq_true] at hb hr
            simp [unknownCount, List.filter_cons, hb, hp, hr] at hrest ⊢
            omega
        · by_cases hr : isReplayAttack e = true
          · rw [Bool.not_eq_true] at hb hp
            simp [unknownCount, List.filter_cons, hb, hp, hr] at hrest ⊢
            omega
          · rw [Bool.not_eq_true] at hb hp hr
            simp [unknownCount, List.filter_cons, hb, hp, hr] at hrest ⊢
            omega

/-! ## C3 -/

/-- C3 counterexample: the single event with label "printreplay" is tallied in
both the print-attack and the replay-attack count of the report, so
categorization is not first-match-wins and the event is not classified
PRINT_ATTACK only. -/
theorem categorize_first_match_cex :
    (computeFinalAccuracy [⟨"printreplay", 1⟩]).printAttackCount = 1 ∧
    (computeFinalAccuracy [⟨"printreplay", 1⟩]).replayAttackCount = 1 := by
  decide

/-- C3 amended: categorization is three independent Boolean filters on the
lower-cased label: benign iff the label is exactly "real", "benign" or "live";
a label containing "print" matches the print filter; a label containing
"replay" matches the replay filter. Benign labels match neither attack filter,
but there is no precedence between the two attack filters: a label containing
both substrings matches both. -/
theorem categorize_predicates_spec :
    (∀ e : ClassificationEvent, isBenign e = true ↔
      (toLowerCase e.className = "real" ∨ toLowerCase e.className = "benign" ∨
        toLowerCase e.className = "live")) ∧
    (∀ e : ClassificationEvent, isBenign e = true →
      isPrintAttack e = false ∧ isReplayAttack e = false) ∧
    (∀ e : ClassificationEvent,
      includesSubstr (toLowerCase e.className) "print" = true → isPrintAttack e = true) ∧
    (∀ e : ClassificationEvent,
      includesSubstr (toLowerCase e.className) "replay" = true → isReplayAttack e = true) := by
  refine ⟨?_, benign_not_attack, ?_, ?_⟩
  · intro e
    simp [isBenign, or_assoc]
  · intro e h
    simp [isPrintAttack, h]
  · intro e h
    simp [isReplayAttack, h]

/-- Concrete instantiation of C3 as amended: "real" matches no attack filter,
"PRINTED" matches the print filter, "some_replay" matches the replay filter. -/
theorem categorize_predicates_spec_witness :
    (isPrintAttack ⟨"real", 1⟩ = false ∧ isReplayAttack ⟨"real", 1⟩ = false) ∧
    isPrintAttack ⟨"PRINTED", 1⟩ = true ∧ isReplayAttack ⟨"some_replay", 1⟩ = true :=
  ⟨categorize_predicates_spec.2.1 ⟨"real", 1⟩ (by decide),
   categorize_predicates_spec.2.2.1 ⟨"PRINTED", 1⟩ (by decide),
   categorize_predicates_spec.2.2.2 ⟨"some_replay", 1⟩ (by decide)⟩

/-! ## C4 -/

/-- C4 counterexample: on the single-event list with label "printreplay" the
report's three counts plus the derived unknown tally sum to 2, not to the
total 1, because the event is tallied by both attack filters. -/
theorem report_counts_sum_cex :
    (computeFinalAccuracy [⟨"printreplay", 1⟩]).benignCount +
      (computeFinalAccuracy [⟨"printreplay", 1⟩]).printAttackCount +
      (computeFinalAccuracy [⟨"printreplay", 1⟩]).replayAttackCount +
      unknownCount [⟨"printreplay", 1⟩] ≠
    (computeFinalAccuracy [⟨"printreplay", 1⟩]).totalPredictions := by
  decide

/-- C4 amended: the report carries three per-category counts (no unknown
field); provided no collected event matches both attack filters, those three
counts plus the derived unknown tally sum to the total. -/
theorem report_counts_sum_spec (data : List ClassificationEvent)
    (hdisj : ∀ e ∈ data, ¬(isPrintAttack e = true ∧ isReplayAttack e = true)) :
    (computeFinalAccuracy data).benignCount +
      (computeFinalAccuracy data).printAttackCount +
      (computeFinalAccuracy data).replayAttackCount +
      unknownCount data =
    (computeFinalAccuracy data).totalPredictions := by
  cases data with
  | nil => decide
  | cons e rest =>
    have hlen : (e :: rest).length > 0 := by simp
    simp only [computeFinalAccuracy, if_pos hlen]
    exact category_partition (e :: rest) hdisj

/-- Concrete instantiation of C4 as amended on a two-event list with disjoint
labels. -/
theorem report_counts_sum_spec_witness :
    (computeFinalAccuracy [⟨"real", 1⟩, ⟨"print", 1⟩]).benignCount +
      (computeFinalAccuracy [⟨"real", 1⟩, ⟨"print", 1⟩]).printAttackCount +
      (computeFinalAccuracy [⟨"real", 1⟩, ⟨"print", 1⟩]).replayAttackCount +
      unknownCount [⟨"real", 1⟩, ⟨"print", 1⟩] =
    (computeFinalAccuracy [⟨"real", 1⟩, ⟨"print", 1⟩]).totalPredictions :=
  report_counts_sum_spec [⟨"real", 1⟩, ⟨"print", 1⟩] (by decide)

/-! ## C6 -/

/-- C6: a session completing with zero collected events publishes exactly the
fail-safe report (total 0, every category count 0, mean confidence 0,
conclusion the spoofing verdict) and never concludes liveness on empty
input. -/
theorem empty_session_failsafe (s : SessionState) (h : s.accuracyData = []) :
    (stopCollection s).finalAccuracy =
      some { averageConfidence := 0
             totalPredictions := 0
             benignCount := 0
             printAttackCount := 0
             replayAttackCount := 0
             conclusion := "Spoofing Attack" } ∧
    unknownCount s.accuracyData = 0 ∧
    ∀ r, (stopCollection s).finalAccuracy = some r → r.conclusion ≠ "Liveness" := by
  refine ⟨?_, ?_, ?_⟩
  · simp [stopCollection, h, computeFinalAccuracy]
  · rw [h]
    decide
  · intro r hr
    simp [stopCollection, h, computeFinalAccuracy] at hr
    rw [← hr]
    decide

/-- Concrete instantiation of C6 at a collecting session that received no
events. -/
theorem empty_session_failsafe_witness :
    (stopCollection ⟨true, 0, [], none, false⟩).finalAccuracy =
      some { averageConfidence := 0
             totalPredictions := 0
             benignCount := 0
             printAttackCount := 0
             replayAttackCount := 0
             conclusion := "Spoofing Attack" } ∧
    unknownCount (SessionState.mk true 0 [] none false).accuracyData = 0 ∧
    ∀ r, (stopCollection ⟨true, 0, [], none, false⟩).finalAccuracy = some r →
      r.conclusion ≠ "Liveness" :=
  empty_session_failsafe ⟨true, 0, [], none, false⟩ rfl

/-! ## C2 -/

/-- The label "real" is benign and matches no attack filter. -/
lemma filters_real (q : ℚ) :
    isBenign ⟨"real", q⟩ = true ∧ isPrintAttack ⟨"real", q⟩ = false ∧
      isReplayAttack ⟨"real", q⟩ = false :=
  ⟨rfl, rfl, rfl⟩

/-- The label "print" matches exactly the print filter. -/
lemma filters_print (q : ℚ) :
    isBenign ⟨"print", q⟩ = false ∧ isPrintAttack ⟨"print", q⟩ = true ∧
      isReplayAttack ⟨"print", q⟩ = false :=
  ⟨rfl, rfl, rfl⟩

/-- The label "replay" matches exactly the replay filter. -/
lemma filters_replay (q : ℚ) :
    isBenign ⟨"replay", q⟩ = false ∧ isPrintAttack ⟨"replay", q⟩ = false ∧
      isReplayAttack ⟨"replay", q⟩ = true :=
  ⟨rfl, rfl, rfl⟩

/-- C2: for every non-empty collected list, the report concludes the liveness
verdict exactly when the benign count strictly exceeds the sum of the two
attack counts, and the spoofing verdict otherwise (so the conclusion is a
function of those three counts alone); and the 6-real/2-print/2-replay session
yields benign 6, print 2, replay 2, total 10, conclusion the liveness verdict,
with mean confidence the arithmetic mean of the ten confidences. -/
theorem conclusion_spec :
    (∀ data : List ClassificationEvent, data ≠ [] →
      ((computeFinalAccuracy data).conclusion = "Liveness" ↔
        (computeFinalAccuracy data).benignCount >
          (computeFinalAccuracy data).printAttackCount +
            (computeFinalAccuracy data).replayAttackCount) ∧
      ((computeFinalAccuracy data).conclusion = "Liveness" ∨
        (computeFinalAccuracy data).conclusion = "Spoofing Attack")) ∧
    (∀ c0 c1 c2 c3 c4 c5 c6 c7 c8 c9 : ℚ,
      computeFinalAccuracy
        [⟨"real", c0⟩, ⟨"real", c1⟩, ⟨"real", c2⟩, ⟨"real", c3⟩, ⟨"real", c4⟩,
         ⟨"real", c5⟩, ⟨"print", c6⟩, ⟨"print", c7⟩, ⟨"replay", c8⟩, ⟨"replay", c9⟩] =
        { averageConfidence := (c0 + c1 + c2 + c3 + c4 + c5 + c6 + c7 + c8 + c9) / 10
          totalPredictions := 10
          benignCount := 6
          printAttackCount := 2
          replayAttackCount := 2
          conclusion := "Liveness" }) := by
  constructor
  · intro data hne
    have hlen : data.length > 0 := List.length_pos.mpr hne
    simp only [computeFinalAccuracy, if_pos hlen]
    by_cases hcmp : (data.filter isBenign).length >
        (data.filter isPrintAttack).length + (data.filter isReplayAttack).length
    · simp [hcmp]
    · simp [hcmp]
  · intro c0 c1 c2 c3 c4 c5 c6 c7 c8 c9
    simp [computeFinalAccuracy, List.filter_cons,
      (filters_real c0).1, (filters_real c0).2.1, (filters_real c0).2.2,
      (filters_real c1).1, (filters_real c1).2.1, (filters_real c1).2.2,
      (filters_real c2).1, (filters_real c2).2.1, (filters_real c2).2.2,
      (filters_real c3).1, (filters_real c3).2.1, (filters_real c3).2.2,
      (filters_real c4).1, (filters_real c4).2.1, (filters_real c4).2.2,
      (filters_real c5).1, (filters_real c5).2.1, (filters_real c5).2.2,
      (filters_print c6).1, (filters_print c6).2.1, (filters_print c6).2.2,
      (filters_print c7).1, (filters_print c7).2.1, (filters_print c7).2.2,
      (filters_replay c8).1, (filters_replay c8).2.1, (filters_replay c8).2.2,
      (filters_replay c9).1, (filters_replay c9).2.1, (filters_replay c9).2.2]
    ring

/-- Concrete instantiation of C2: the worked example with every confidence
equal to 1/2, whose mean is 1/2, plus the conclusion rule read back off the
resulting report. -/
theorem conclusion_spec_witness :
    (computeFinalAccuracy
        [⟨"real", 1/2⟩, ⟨"real", 1/2⟩, ⟨"real", 1/2⟩, ⟨"real", 1/2⟩, ⟨"real", 1/2⟩,
         ⟨"real", 1/2⟩, ⟨"print", 1/2⟩, ⟨"print", 1/2⟩, ⟨"replay", 1/2⟩, ⟨"replay", 1/2⟩] =
      { averageConfidence := (1/2 + 1/2 + 1/2 + 1/2 + 1/2 + 1/2 + 1/2 + 1/2 + 1/2 + 1/2) / 10
        totalPredictions := 10
        benignCount := 6
        printAttackCount := 2
        replayAttackCount := 2
        conclusion := "Liveness" }) ∧
    ((computeFinalAccuracy [⟨"printreplay", 1⟩]).conclusion = "Liveness" ↔
      (computeFinalAccuracy [⟨"printreplay", 1⟩]).benignCount >
        (computeFinalAccuracy [⟨"printreplay", 1⟩]).printAttackCount +
          (computeFinalAccuracy [⟨"printreplay", 1⟩]).replayAttackCount) :=
  ⟨conclusion_spec.2 (1/2) (1/2) (1/2) (1/2) (1/2) (1/2) (1/2) (1/2) (1/2) (1/2),
   (conclusion_spec.1 [⟨"printreplay", 1⟩] (by simp)).1⟩

/-! ## C5 -/

/-- Folding the event handler over a collecting session appends every event in
order and stays collecting. -/
lemma foldl_onEvent_data :
    ∀ (events : List ClassificationEvent) (s : SessionState),
      s.isCollecting = true →
      (events.foldl onEvent s).accuracyData = s.accuracyData ++ events ∧
      (events.foldl onEvent s).isCollecting = true
  | [], s, h => by
      exact ⟨by simp, h⟩
  | e :: rest, s, h => by
      have h2 : (onEvent s e).isCollecting = true := by
        simp [onEvent, h]
      obtain ⟨ih1, ih2⟩ := foldl_onEvent_data rest (onEvent s e) h2
      refine ⟨?_, ih2⟩
      rw [List.foldl_cons, ih1]
      simp [onEvent, h]

/-- C5, evaluated at the failing input: the first session, started from the
initial idle state, collects one "real" event, then the deadline fires. The
interval callback holds the stopCollection closure of the render in which
startCollection ran, and that closure captured the empty accuracyData of that
render, so the deadline publishes the fail-safe report over no events; a
manual stop at the same moment runs the latest render's stopCollection and
publishes the report over the accumulated event. The two reports differ, so
deadline expiry does not perform the same aggregation as an explicit stop. -/
theorem deadline_stale_closure_bug :
    (tickTimer (SessionState.mk false 15 [] none false).accuracyData
        { [ClassificationEvent.mk "real" 1].foldl onEvent
            (startCollection (SessionState.mk false 15 [] none false)) with
          timeRemaining := 1 }).finalAccuracy =
      some (computeFinalAccuracy []) ∧
    (stopCollection
        ([ClassificationEvent.mk "real" 1].foldl onEvent
          (startCollection (SessionState.mk false 15 [] none false)))).finalAccuracy =
      some (computeFinalAccuracy [ClassificationEvent.mk "real" 1]) ∧
    (tickTimer (SessionState.mk false 15 [] none false).accuracyData
        { [ClassificationEvent.mk "real" 1].foldl onEvent
            (startCollection (SessionState.mk false 15 [] none false)) with
          timeRemaining := 1 }).finalAccuracy ≠
      (stopCollection
          ([ClassificationEvent.mk "real" 1].foldl onEvent
            (startCollection (SessionState.mk false 15 [] none false)))).finalAccuracy := by
  refine ⟨rfl, rfl, ?_⟩
  intro h
  have h2 : computeFinalAccuracy ([] : List ClassificationEvent) =
      computeFinalAccuracy [ClassificationEvent.mk "real" 1] :=
    Option.some.inj h
  have h3 := congrArg FinalAccuracy.totalPredictions h2
  exact absurd h3 (by decide)

/-! ## C9 -/

/-- C9 counterexample: on a never-started idle state (not collecting, no
report), stopCollection is not a no-op: it publishes a report and flips
showResults, so the guard claimed by the specification does not exist. -/
theorem stop_noop_cex :
    (SessionState.mk false 15 [] none false).isCollecting = false ∧
    stopCollection (SessionState.mk false 15 [] none false) ≠
      SessionState.mk false 15 [] none false := by
  refine ⟨rfl, ?_⟩
  intro h
  have h2 := congrArg SessionState.finalAccuracy h
  simp [stopCollection] at h2

/-- C9 amended: stopCollection carries no state guard, but it is idempotent as
a state transformer: a second stopCollection leaves the state (and hence the
published report) exactly as after the first, and the report it publishes is
always the single aggregation of the current accuracyData. -/
theorem stop_idempotent :
    (∀ s : SessionState, stopCollection (stopCollection s) = stopCollection s) ∧
    (∀ s : SessionState,
      (stopCollection (stopCollection s)).finalAccuracy =
        (stopCollection s).finalAccuracy) ∧
    (∀ s : SessionState,
      (stopCollection s).finalAccuracy = some (computeFinalAccuracy s.accuracyData)) :=
  ⟨fun _ => rfl, fun _ => rfl, fun _ => rfl⟩

end LivenessApp
